import Mathlib

/-!
Verification development for the whatsapp-service relay.

The source (src/whatsapp-manager.js `WhatsAppManager`, src/whatsapp-client.js
`WhatsAppClient`, src/unnamed/part_000 relay `WhatsAppManager`) is embedded
shallowly: each message handler becomes a pure function from the inbound
item and the transport-level result of its backend call to the list of
backend calls it issues and the list of texts it sends back to the chat.
JavaScript `undefined`/missing fields are modelled with `Option`,
JS truthiness of strings with an explicit test, and machine time with `Int`
milliseconds.
-/

namespace WhatsAppService

/-- JS truthiness of an optional string field: `undefined`, `null` and `""`
are falsy. -/
def jsTruthy : Option String → Bool
  | some s => s ≠ ""
  | none => false

/-- JS `x || d` on an optional string field. -/
def jsOr (o : Option String) (d : String) : String :=
  match o with
  | some s => if s = "" then d else s
  | none => d

/-- JS template line `if (info.f) msg += label + info.f + newline` used by the
message builders in the source. -/
def optLine (label : String) (o : Option String) : String :=
  match o with
  | some s => if s = "" then "" else label ++ s ++ "\n"
  | none => ""

/-- JS `String.prototype.trim`: strip leading and trailing whitespace. -/
def jsTrim (s : String) : String :=
  ⟨((s.data.dropWhile Char.isWhitespace).reverse.dropWhile
      Char.isWhitespace).reverse⟩

/-- JS `String.prototype.toLowerCase`, character by character. JS lowers the
full Unicode range while `Char.toLower` lowers ASCII only; the reply tokens
compared against in the source are ASCII or already lower-case, where the
two agree. -/
def jsToLower (s : String) : String :=
  ⟨s.data.map Char.toLower⟩

/-- Embeds `(message.body || '').trim().toLowerCase()`
(src/whatsapp-manager.js line 280, src/whatsapp-client.js line 326,
and the top of both response handlers). -/
def normalizeText (body : Option String) : String :=
  jsToLower (jsTrim (body.getD ""))

/-- Dispatch test for category replies, src/whatsapp-manager.js line 283. -/
def isCategoryText (t : String) : Bool :=
  t = "material" || t = "mao de obra" || t = "mão de obra"

/-- Dispatch test for validation replies, src/whatsapp-manager.js line 290. -/
def isValidationText (t : String) : Bool :=
  t = "sim" || t = "não" || t = "nao" || t = "editar"

/-- Option mapping of `handleCategoryResponse`,
src/whatsapp-manager.js lines 446-453. -/
def categoryOption (t : String) : Option String :=
  if t = "material" then some "0"
  else if t = "mao de obra" || t = "mão de obra" then some "1"
  else none

/-- Option mapping of `handleValidationResponse`,
src/whatsapp-manager.js lines 535-544. -/
def validationOption (t : String) : Option String :=
  if t = "sim" then some "0"
  else if t = "não" || t = "nao" then some "1"
  else if t = "editar" then some "2"
  else none

/-- One normalized inbound transport message (the fields of the
whatsapp-web.js `message`/`chat` objects the handlers read). -/
structure InboundItem where
  sentAtEpochMillis : Int
  isGroup : Bool
  body : Option String
  deriving Repr, DecidableEq

/-- `60 * 1000`, the staleness bound of src/whatsapp-manager.js line 266. -/
def oneMinuteMs : Int := 60 * 1000

inductive InteractionKind
  | CategorySelection
  | ValidationConfirmation
  deriving Repr, DecidableEq

inductive DropReason
  | stale
  | notGroup
  | unrecognizedToken
  deriving Repr, DecidableEq

/-- The spec's `Action` classification produced by the router. -/
inductive Action
  | Drop (reason : DropReason)
  | AnswerPending (kind : InteractionKind) (optionCode : String)
  | ForwardAsNewItem
  deriving Repr, DecidableEq

/-- Text dispatched to `handleCategoryResponse`: the handler maps it to an
option code, or returns early with no effect (lines 446-453). -/
def routeCategory (t : String) : Action :=
  match categoryOption t with
  | some c => .AnswerPending .CategorySelection c
  | none => .Drop .unrecognizedToken

/-- Text dispatched to `handleValidationResponse`: likewise (lines 535-544). -/
def routeValidation (t : String) : Action :=
  match validationOption t with
  | some c => .AnswerPending .ValidationConfirmation c
  | none => .Drop .unrecognizedToken

/-- The router realized by the unified message handler of
src/whatsapp-manager.js lines 260-302: staleness filter (262-271),
group filter (273-277), then the token dispatch (282-297); everything
else is handled as a regular message (`handleMessage`, line 297).
The source consults no per-conversation pending state here: the dispatch
depends on the message text alone. -/
def route (now : Int) (item : InboundItem) : Action :=
  if now - item.sentAtEpochMillis > oneMinuteMs then .Drop .stale
  else if item.isGroup = false then .Drop .notGroup
  else
    let t := normalizeText item.body
    if isCategoryText t then routeCategory t
    else if isValidationText t then routeValidation t
    else .ForwardAsNewItem

/-- A transport-level failure of a backend HTTP call: the ways an
`axios.post` can reject. -/
inductive TransportError
  | timeout
  | non2xx (code : Nat)
  | malformedBody
  deriving Repr, DecidableEq

/-- One backend HTTP call, tagged with the endpoint the source posts to and
the selected option it submits. -/
inductive BackendCall
  | webhook
  | categorySelection (selectedOption : String)
  | pollVote (selectedOption : String)
  deriving Repr, DecidableEq

/-- What one run of a message handler did: the backend calls it issued, in
order, and the arguments of its `sendMessage`/`reply` calls, in order
(`none` models passing JS `undefined`). -/
structure Outcome where
  calls : List BackendCall
  sends : List (Option String)
  deriving Repr, DecidableEq

/-- The `processed_info` object of backend responses; every field the
message builders read, each possibly absent. -/
structure ProcessedInfo where
  tipo_documento : Option String
  valor : Option String
  data : Option String
  categoria : Option String
  descricao : Option String
  pagador : Option String
  deriving Repr, DecidableEq

/-- JS `next.processed_info || {}`. -/
def emptyInfo : ProcessedInfo := ⟨none, none, none, none, none, none⟩

/-- The `next_validation` object of category-selection / poll-vote
responses. -/
structure NextValidation where
  needs_category_selection : Bool
  processed_info : Option ProcessedInfo
  deriving Repr, DecidableEq

/-- Response body of `POST /api/whatsapp/poll-vote` as read by
src/whatsapp-manager.js `handleValidationResponse` (lines 557-633). -/
structure VoteResponse where
  status : Option String
  message : Option String
  send_confirmation : Bool
  valor : Option String
  send_message : Bool
  next_validation : Option NextValidation
  deriving Repr, DecidableEq

/-- Response body of `POST /api/whatsapp/category-selection` as read by
src/whatsapp-manager.js `handleCategoryResponse` (lines 468-525). -/
structure CategoryResponse where
  next_validation : Option NextValidation
  send_validation_poll : Bool
  processed_info : Option ProcessedInfo
  deriving Repr, DecidableEq

/-- Response body of `POST /api/whatsapp/webhook` as read by
src/whatsapp-manager.js `handleMessage` (lines 347-436). -/
structure WebhookResponse where
  status : Option String
  message : Option String
  validation_required : Bool
  processed_info : Option ProcessedInfo
  deriving Repr, DecidableEq

/-- The divider the source inserts between info block and instructions. -/
def separatorLines : String := "\n━━━━━━━━━━━━━━━━━━\n\n"

/-- The fixed Sim/Não/Editar instruction block the source appends to every
validation question. -/
def authorizeLines : String :=
  "Para autorizar o lançamento, responda:\n✅ *Sim* - Aprovar\n❌ *Não* - Rejeitar\n✏️ *Editar* - Edição manual"

/-- Validation question of `handleMessage`,
src/whatsapp-manager.js lines 423-433. -/
def validacaoPendenteMsg (info : ProcessedInfo) : String :=
  "🔍 *VALIDAÇÃO PENDENTE*\n\n"
    ++ "📄 Tipo: " ++ jsOr info.tipo_documento "não identificado" ++ "\n"
    ++ "💰 Valor: " ++ jsOr info.valor "N/A" ++ "\n"
    ++ "📅 Data: " ++ jsOr info.data "N/A" ++ "\n"
    ++ "📝 " ++ jsOr info.descricao "Sem descrição" ++ "\n"
    ++ separatorLines ++ authorizeLines

/-- Default ambiguous-category question of `handleMessage`,
src/whatsapp-manager.js lines 398-409. -/
def categoriaAmbiguaMsg (info : ProcessedInfo) : String :=
  "⚠️ *CATEGORIA AMBÍGUA*\n\n"
    ++ "📄 Tipo: " ++ jsOr info.tipo_documento "não identificado" ++ "\n"
    ++ "💰 Valor: " ++ jsOr info.valor "N/A" ++ "\n"
    ++ "📅 Data: " ++ jsOr info.data "N/A" ++ "\n"
    ++ optLine "📝 " info.descricao
    ++ optLine "💳 Pagador: " info.pagador
    ++ separatorLines
    ++ "Este lançamento pode ser Material ou Mão de Obra.\nPor favor, escolha a categoria:\n\n🧱 *Material* - Digite: material\n👷 *Mão de Obra* - Digite: mao de obra"

/-- Queued-follow-up category question,
src/whatsapp-manager.js lines 603-613 (identically 474-484). -/
def novaValidacaoCategoryMsg (info : ProcessedInfo) : String :=
  "📊 *NOVA VALIDAÇÃO - SELECIONE A CATEGORIA*\n\n"
    ++ "📄 Tipo: " ++ jsOr info.tipo_documento "não identificado" ++ "\n"
    ++ "💰 Valor: " ++ jsOr info.valor "N/A" ++ "\n"
    ++ "📅 Data: " ++ jsOr info.data "N/A" ++ "\n"
    ++ optLine "📝 " info.descricao
    ++ optLine "💳 Pagador: " info.pagador
    ++ separatorLines
    ++ "⚠️ Não consegui determinar a categoria com certeza.\nPor favor, responda:\n🧱 *Material*\n👷 *Mão de Obra*"

/-- Queued-follow-up validation question,
src/whatsapp-manager.js lines 618-629 (identically 488-499). -/
def novaValidacaoPendenteMsg (info : ProcessedInfo) : String :=
  "🔍 *NOVA VALIDAÇÃO PENDENTE*\n\n"
    ++ "📄 Tipo: " ++ jsOr info.tipo_documento "não identificado" ++ "\n"
    ++ "💰 Valor: " ++ jsOr info.valor "N/A" ++ "\n"
    ++ "📅 Data: " ++ jsOr info.data "N/A" ++ "\n"
    ++ optLine "📋 Categoria: " info.categoria
    ++ optLine "📝 " info.descricao
    ++ optLine "💳 Pagador: " info.pagador
    ++ separatorLines ++ authorizeLines

/-- Validation question sent after a category was chosen,
src/whatsapp-manager.js lines 510-521. -/
def validacaoPendenteCatMsg (info : ProcessedInfo) : String :=
  "🔍 *VALIDAÇÃO PENDENTE*\n\n"
    ++ "📄 Tipo: " ++ jsOr info.tipo_documento "não identificado" ++ "\n"
    ++ "💰 Valor: " ++ jsOr info.valor "N/A" ++ "\n"
    ++ "📅 Data: " ++ jsOr info.data "N/A" ++ "\n"
    ++ optLine "📋 Categoria: " info.categoria
    ++ optLine "📝 " info.descricao
    ++ optLine "💳 Pagador: " info.pagador
    ++ separatorLines ++ authorizeLines

/-- Manual-edit instruction, src/whatsapp-manager.js line 591. -/
def editMessage : String :=
  "✏️ *EDIÇÃO MANUAL SOLICITADA*\n\nPor favor, adicione o gasto manualmente no sistema.\n\nO sistema não conseguiu processar automaticamente este documento.\nAcesse o painel web para inserir os dados manualmente."

/-- Rendering of a `next_validation` follow-up,
src/whatsapp-manager.js lines 598-632. -/
def nextValidationMessage (next : NextValidation) : String :=
  let info := next.processed_info.getD emptyInfo
  if next.needs_category_selection then novaValidacaoCategoryMsg info
  else novaValidacaoPendenteMsg info

/-- Messages sent by `handleValidationResponse` for a decoded poll-vote
response, src/whatsapp-manager.js lines 559-633. The first three statuses
return after their single message; `send_confirmation`, `send_message` and
`next_validation` blocks run in sequence. -/
def handleValidationSends (r : VoteResponse) : List (Option String) :=
  if r.status == some "needs_category" then
    [some (jsOr r.message "Por favor, selecione a categoria:\n\n🧱 *Material*\n👷 *Mão de Obra*")]
  else if r.status == some "needs_validation" then
    [r.message]
  else if r.status == some "rejected" then
    [some (jsOr r.message "❌ Lançamento cancelado.")]
  else
    (if r.send_confirmation then
      [some ("✅ Pagamento " ++ jsOr r.valor "N/A" ++ " lançado.")]
    else [])
    ++ (if r.send_message then [some editMessage] else [])
    ++ (match r.next_validation with
      | some next => [some (nextValidationMessage next)]
      | none => [])

/-- Messages sent by `handleCategoryResponse` for a decoded
category-selection response, src/whatsapp-manager.js lines 468-525. -/
def handleCategorySends (r : CategoryResponse) : List (Option String) :=
  (match r.next_validation with
    | some next => [some (nextValidationMessage next)]
    | none => [])
  ++ (if r.send_validation_poll then
      [some (validacaoPendenteCatMsg (r.processed_info.getD emptyInfo))]
    else [])

/-- `commandStatuses` of src/whatsapp-manager.js lines 350-364. -/
def managerCommandStatuses : List String :=
  ["diary_started", "diary_ended", "info", "report_generated",
   "registration_mode_activated", "registration_completed",
   "registration_failed", "registration_cancelled", "context_learned",
   "query_response", "phone_registered", "phone_already_registered",
   "pending_validation"]

/-- `list.includes(status)` where `status` may be `undefined`. -/
def statusIn (l : List String) (status : Option String) : Bool :=
  match status with
  | some s => l.contains s
  | none => false

/-- Messages sent by `handleMessage` for a decoded webhook response,
src/whatsapp-manager.js lines 349-436: sequential early-return blocks for
command statuses, duplicate confirmation, category selection,
`diary_entry_saved`, then the validation question. -/
def handleMessageSends (r : WebhookResponse) : List (Option String) :=
  if statusIn managerCommandStatuses r.status then
    (if jsTruthy r.message then [r.message] else [])
  else if r.status == some "needs_duplicate_confirmation" then
    [some (jsOr r.message "Duplicata detectada. Deseja continuar?")]
  else if r.status == some "needs_category_selection"
      && r.processed_info.isSome then
    [some (if jsTruthy r.message then r.message.getD ""
      else categoriaAmbiguaMsg (r.processed_info.getD emptyInfo))]
  else if r.status == some "diary_entry_saved" then []
  else if r.validation_required && r.processed_info.isSome then
    [some (validacaoPendenteMsg (r.processed_info.getD emptyInfo))]
  else []

/-- `handleCategoryResponse` (src/whatsapp-manager.js lines 442-529) given
the transport result of its category-selection call: unmapped text returns
early with no call; a transport failure is caught and only logged. -/
def handleCategoryOutcome (t : String)
    (cat : Except TransportError CategoryResponse) : Outcome :=
  match categoryOption t with
  | none => ⟨[], []⟩
  | some opt =>
    match cat with
    | .error _ => ⟨[.categorySelection opt], []⟩
    | .ok r => ⟨[.categorySelection opt], handleCategorySends r⟩

/-- `handleValidationResponse` (src/whatsapp-manager.js lines 531-637)
given the transport result of its poll-vote call. -/
def handleValidationOutcome (t : String)
    (vote : Except TransportError VoteResponse) : Outcome :=
  match validationOption t with
  | none => ⟨[], []⟩
  | some opt =>
    match vote with
    | .error _ => ⟨[.pollVote opt], []⟩
    | .ok r => ⟨[.pollVote opt], handleValidationSends r⟩

/-- `handleMessage` (src/whatsapp-manager.js lines 305-440) given the
transport result of its webhook call: the catch at lines 437-439 only
logs, so a failed call produces no outbound message. -/
def handleMessageOutcome
    (web : Except TransportError WebhookResponse) : Outcome :=
  match web with
  | .error _ => ⟨[.webhook], []⟩
  | .ok r => ⟨[.webhook], handleMessageSends r⟩

/-- The whole unified message handler of src/whatsapp-manager.js lines
260-302, as a function of the inbound item and of what each backend
endpoint would answer (at most one of the three oracles is consulted).
Its outer catch (lines 299-301) only logs, so every branch returns an
outcome rather than throwing. -/
def unifiedHandler (now : Int) (item : InboundItem)
    (web : Except TransportError WebhookResponse)
    (cat : Except TransportError CategoryResponse)
    (vote : Except TransportError VoteResponse) : Outcome :=
  if now - item.sentAtEpochMillis > oneMinuteMs then ⟨[], []⟩
  else if item.isGroup = false then ⟨[], []⟩
  else
    let t := normalizeText item.body
    if isCategoryText t then handleCategoryOutcome t cat
    else if isValidationText t then handleValidationOutcome t vote
    else handleMessageOutcome web

/-- Webhook response body as read by the relay handler of
src/unnamed/part_000 (line 139). -/
structure RelayResponse where
  reply_message : Option String
  deriving Repr, DecidableEq

/-- Generic error reply of the relay handler, src/unnamed/part_000
line 153. -/
def relayErrorText : String := "❌ Erro ao processar mensagem. Tente novamente."

/-- The relay message handler of src/unnamed/part_000 lines 81-159:
staleness filter (84-88), group filter (90-94), webhook call with the
`reply_message` passthrough (130-144), and a catch that sends one fixed
generic error message (146-158; its nested catch only logs). -/
def relayHandler (now : Int) (item : InboundItem)
    (web : Except TransportError RelayResponse) : Outcome :=
  if now - item.sentAtEpochMillis > 60000 then ⟨[], []⟩
  else if item.isGroup = false then ⟨[], []⟩
  else
    match web with
    | .error _ => ⟨[.webhook], [some relayErrorText]⟩
    | .ok r =>
      ⟨[.webhook], if jsTruthy r.reply_message then [r.reply_message] else []⟩

/-- Webhook response body as read by src/whatsapp-client.js
`handleMessage` (lines 384-443). -/
structure ClientWebhookResponse where
  status : Option String
  message : Option String
  pending_id : Option String
  upload_id : Option String
  processed_info : Option ProcessedInfo
  deriving Repr, DecidableEq

/-- `sendToWebhook` of src/whatsapp-client.js lines 531-552: returns the
response body, or `null` after catching any transport failure. -/
def sendToWebhook
    (web : Except TransportError ClientWebhookResponse) :
    Option ClientWebhookResponse :=
  match web with
  | .ok r => some r
  | .error _ => none

/-- `commandStatuses` of src/whatsapp-client.js lines 386-395. -/
def clientCommandStatuses : List String :=
  ["registration_mode_activated", "registration_completed",
   "registration_failed", "registration_cancelled", "context_learned",
   "diary_started", "diary_ended", "report_generated"]

/-- The `pendingValidations` store after src/whatsapp-client.js
`handleMessage` processes a webhook result (lines 384-443): the handler
returns before reaching the store on command statuses and on
`needs_category_selection`, and records `(pending_id, record)` only when
the response is non-null and carries a truthy `pending_id`. The stored
record (groupId, messageData, processedData, uploadId; lines 437-442) is
taken as a parameter. -/
def clientPendingAfter {α : Type} (record : α)
    (pending : List (String × α))
    (resp : Option ClientWebhookResponse) : List (String × α) :=
  match resp with
  | none => pending
  | some r =>
    if jsTruthy r.status
        && clientCommandStatuses.contains (r.status.getD "") then pending
    else if r.status == some "needs_category_selection" then pending
    else if jsTruthy r.pending_id then
      pending ++ [(r.pending_id.getD "", record)]
    else pending

/-! The `timeout` option passed to `axios.post` at each backend call site,
in milliseconds; `none` means no `timeout` option appears in the call
(axios then applies its default of `0`, i.e. no timeout). -/

/-- src/unnamed/part_000 line 133 (webhook call of the relay handler);
the relay copy embedded in src/whatsapp-manager.js line 116 is the same. -/
def relayWebhookTimeoutMs : Option Nat := some 60000

/-- src/whatsapp-client.js line 540 (`sendToWebhook`). -/
def clientWebhookTimeoutMs : Option Nat := some 30000

/-- src/whatsapp-manager.js line 346 (`handleMessage` webhook call:
no config object at all). -/
def managerWebhookTimeoutMs : Option Nat := none

/-- src/whatsapp-manager.js lines 457-463 (`handleCategoryResponse`
category-selection call). -/
def managerCategoryTimeoutMs : Option Nat := none

/-- src/whatsapp-manager.js lines 549-555 (`handleValidationResponse`
poll-vote call). -/
def managerPollVoteTimeoutMs : Option Nat := none

/-- src/whatsapp-client.js lines 133-139 (`handleCategoryResponse`
category-selection call). -/
def clientCategoryTimeoutMs : Option Nat := none

/-- src/whatsapp-client.js lines 175-181 (`handleValidationResponse`
poll-vote call). -/
def clientPollVoteTimeoutMs : Option Nat := none

/-- `await client.getState()` either yields a state string or throws. -/
inductive StateQueryError
  | queryFailed
  deriving Repr, DecidableEq

/-- The JSON object `getStatus` resolves with. -/
structure ClientStatus where
  connected : Bool
  hasQR : Bool
  client_state : String
  deriving Repr, DecidableEq

/-- `getStatus` of src/whatsapp-manager.js lines 645-670 (identically
src/unnamed/part_000 lines 166-190). `clients uid` models
`this.clients.get(userId)` combined with what `await client.getState()`
would do for that client; `qrCodes uid` models `this.qrCodes.has(userId)`.
Every branch returns a status object; the try/catch means a failing state
query is never propagated. -/
def getStatus (clients : String → Option (Except StateQueryError String))
    (qrCodes : String → Bool) (userId : String) : ClientStatus :=
  match clients userId with
  | none => ⟨false, false, "not_initialized"⟩
  | some (.ok state) => ⟨state == "CONNECTED", qrCodes userId, state⟩
  | some (.error _) => ⟨false, qrCodes userId, "initializing"⟩

/-- Modelled from the spec: the spec's §3 PendingInteraction record
(`kind`, `choiceTable`, `context`). No PendingInteractionStore exists
under src/ — the source keeps all pending-question state in the backend
service — so the store and its operations below follow the spec's §4.2
contract verbatim. -/
structure PendingInteraction where
  kind : InteractionKind
  choiceTable : List (String × String)
  context : String
  deriving Repr, DecidableEq

/-- Modelled from the spec: one conversation's slice of the §4.2
PendingInteractionStore. The in-flight slot is represented as a list so
that "at most one PendingInteraction is active" is a provable invariant
rather than a typing artifact. -/
structure PendingStore where
  active : List PendingInteraction
  queue : List PendingInteraction
  deriving Repr, DecidableEq

/-- A conversation before any activity. -/
def emptyStore : PendingStore := ⟨[], []⟩

inductive StoreError
  | AlreadyPending
  deriving Repr, DecidableEq

/-- Modelled from the spec: `setPending` fails with `AlreadyPending` if an
interaction is already active (§4.2). -/
def setPending (s : PendingStore) (i : PendingInteraction) :
    Except StoreError PendingStore :=
  match s.active with
  | [] => .ok { s with active := [i] }
  | _ :: _ => .error .AlreadyPending

/-- Modelled from the spec: `resolve` clears the slot and returns what was
cleared, or none (§4.2). -/
def resolve (s : PendingStore) : Option PendingInteraction × PendingStore :=
  match s.active with
  | [] => (none, s)
  | a :: rest => (some a, { s with active := rest })

/-- Modelled from the spec: `enqueue` appends to the PendingQueue (§4.2). -/
def enqueue (s : PendingStore) (i : PendingInteraction) : PendingStore :=
  { s with queue := s.queue ++ [i] }

/-- Modelled from the spec: `dequeueNext` pops the oldest queued
interaction (§4.2). -/
def dequeueNext (s : PendingStore) :
    Option PendingInteraction × PendingStore :=
  match s.queue with
  | [] => (none, s)
  | a :: rest => (some a, { s with queue := rest })

/-- One call against the store. -/
inductive StoreOp
  | setPendingOp (i : PendingInteraction)
  | enqueueOp (i : PendingInteraction)
  | resolveOp
  | dequeueOp
  deriving Repr, DecidableEq

/-- The state reached after one call (a failed `setPending` leaves the
store unchanged). -/
def applyOp (s : PendingStore) : StoreOp → PendingStore
  | .setPendingOp i =>
    match setPending s i with
    | .ok s2 => s2
    | .error _ => s
  | .enqueueOp _i => enqueue s _i
  | .resolveOp => (resolve s).2
  | .dequeueOp => (dequeueNext s).2

/-- The state reached after a sequence of calls. -/
def runOps (s : PendingStore) (ops : List StoreOp) : PendingStore :=
  ops.foldl applyOp s

/-- The wire shape of the spec's `Confirm(amount)` directive on the
poll-vote endpoint (§6): a response carrying only `send_confirmation`
and `valor`. -/
def confirmResponse (amount : String) : VoteResponse :=
  ⟨none, none, true, some amount, false, none⟩

/-- A concrete validation interaction used to instantiate store theorems. -/
def sampleInteractionA : PendingInteraction :=
  ⟨.ValidationConfirmation, [("sim", "0"), ("não", "1"), ("editar", "2")],
   "itemA"⟩

/-- A concrete category interaction used to instantiate store theorems. -/
def sampleInteractionB : PendingInteraction :=
  ⟨.CategorySelection, [("material", "0"), ("mao de obra", "1")], "itemB"⟩

/-- A second concrete validation interaction. -/
def sampleInteractionC : PendingInteraction :=
  ⟨.ValidationConfirmation, [("sim", "0"), ("nao", "1")], "itemC"⟩

end WhatsAppService

namespace WhatsAppService

/-! ## Helper lemmas -/

/-- Each store call preserves "at most one active interaction". -/
lemma applyOp_active_length (s : PendingStore) (op : StoreOp)
    (h : s.active.length ≤ 1) : (applyOp s op).active.length ≤ 1 := by
  obtain ⟨act, q⟩ := s
  cases op with
  | setPendingOp i =>
    cases act with
    | nil => simp [applyOp, setPending]
    | cons a rest => simpa [applyOp, setPending] using h
  | enqueueOp i => simpa [applyOp, enqueue] using h
  | resolveOp =>
    cases act with
    | nil => simp [applyOp, resolve]
    | cons a rest =>
      have h2 : rest.length + 1 ≤ 1 := by simpa using h
      simp [applyOp, resolve]
      omega
  | dequeueOp =>
    cases q with
    | nil => simpa [applyOp, dequeueNext] using h
    | cons a rest => simpa [applyOp, dequeueNext] using h

/-- A run of store calls preserves "at most one active interaction". -/
lemma runOps_active_length (ops : List StoreOp) (s : PendingStore)
    (h : s.active.length ≤ 1) : (runOps s ops).active.length ≤ 1 := by
  induction ops generalizing s with
  | nil => simpa [runOps] using h
  | cons op rest ih =>
    have h2 := ih (applyOp s op) (applyOp_active_length s op h)
    simpa [runOps, List.foldl_cons] using h2

/-- Enqueueing a batch appends it to the queue in submission order. -/
lemma runOps_enqueue_queue (l : List PendingInteraction)
    (t : PendingStore) :
    (runOps t (l.map .enqueueOp)).queue = t.queue ++ l := by
  induction l generalizing t with
  | nil => simp [runOps]
  | cons a rest ih =>
    have h2 := ih (applyOp t (.enqueueOp a))
    simp only [List.map_cons, runOps, List.foldl_cons] at h2 ⊢
    rw [h2]
    simp [applyOp, enqueue]

/-! ## Claims -/

/-- Claim C1 (confirmed, spec-modelled): on one conversation's
PendingInteractionStore, every sequence of calls starting from the empty
store keeps at most one PendingInteraction active; a second `setPending`
before `resolve` fails with `AlreadyPending` (and changes nothing); and
`enqueue` while one is outstanding appends to the PendingQueue without
activating anything. -/
theorem at_most_one_pending (ops : List StoreOp) (s : PendingStore)
    (i : PendingInteraction) :
    (runOps emptyStore ops).active.length ≤ 1 ∧
    (s.active ≠ [] → setPending s i = .error .AlreadyPending) ∧
    (enqueue s i).active = s.active ∧
    (enqueue s i).queue = s.queue ++ [i] := by
  refine ⟨runOps_active_length ops emptyStore (by simp [emptyStore]),
    ?_, rfl, rfl⟩
  intro h
  obtain ⟨act, q⟩ := s
  cases act with
  | nil => simp at h
  | cons a rest => simp [setPending]

/-- Claim C1 witness: instantiated at a store already holding an active
interaction, a concrete second `setPending` fails with `AlreadyPending`,
and a concrete run keeps at most one active. -/
theorem at_most_one_pending_witness :
    (PendingStore.mk [sampleInteractionA] []).active ≠ [] ∧
    setPending ⟨[sampleInteractionA], []⟩ sampleInteractionB =
      .error .AlreadyPending ∧
    (runOps emptyStore
      [.setPendingOp sampleInteractionA, .setPendingOp sampleInteractionB,
       .enqueueOp sampleInteractionC]).active.length ≤ 1 :=
  ⟨by decide,
   (at_most_one_pending [] ⟨[sampleInteractionA], []⟩
     sampleInteractionB).2.1 (by decide),
   (at_most_one_pending
     [.setPendingOp sampleInteractionA, .setPendingOp sampleInteractionB,
      .enqueueOp sampleInteractionC]
     ⟨[sampleInteractionA], []⟩ sampleInteractionB).1⟩

/-- Claim C2 counterexample: a regular (non-token) group message whose
webhook call times out. In src/whatsapp-manager.js the catch blocks
(lines 437-439 and 299-301) only log, so the handler sends zero
messages, not the one generic error message the claim requires. -/
theorem backend_failure_not_one_message :
    ¬((unifiedHandler 1000 ⟨0, true, some "boleto de R$200"⟩
        (.error .timeout) (.error .timeout) (.error .timeout)).sends.length
      = 1) := by decide

/-- Claim C2 amended: on any transport-level failure of the backend call
for a fresh, in-group, non-token message, the relay handler of
src/unnamed/part_000 sends exactly one generic error message while the
handler of src/whatsapp-manager.js only logs and sends none; in both the
backend call is issued exactly once (never retried), the handler returns
normally, and the client's `pendingValidations` store is left unchanged. -/
theorem backend_failure_handling (e : TransportError) (now : Int)
    (item : InboundItem)
    (cat : Except TransportError CategoryResponse)
    (vote : Except TransportError VoteResponse)
    (hfresh : ¬(now - item.sentAtEpochMillis > oneMinuteMs))
    (hgroup : item.isGroup = true)
    (hcat : isCategoryText (normalizeText item.body) = false)
    (hval : isValidationText (normalizeText item.body) = false) :
    unifiedHandler now item (.error e) cat vote = ⟨[.webhook], []⟩ ∧
    relayHandler now item (.error e) = ⟨[.webhook], [some relayErrorText]⟩ ∧
    (∀ (α : Type) (record : α) (pending : List (String × α)),
      clientPendingAfter record pending (sendToWebhook (.error e))
        = pending) := by
  have h60 : ¬(now - item.sentAtEpochMillis > (60000 : Int)) := by
    simpa [oneMinuteMs] using hfresh
  refine ⟨?_, ?_, ?_⟩
  · simp [unifiedHandler, hfresh, hgroup, hcat, hval, handleMessageOutcome]
  · simp [relayHandler, h60, hgroup]
  · intro α record pending
    rfl

/-- Claim C2 witness: the amended statement at a concrete timed-out
webhook call. -/
theorem backend_failure_handling_witness :
    unifiedHandler 1000 ⟨0, true, some "nota fiscal"⟩ (.error .timeout)
      (.error .timeout) (.error .timeout) = ⟨[.webhook], []⟩ ∧
    relayHandler 1000 ⟨0, true, some "nota fiscal"⟩ (.error .timeout) =
      ⟨[.webhook], [some relayErrorText]⟩ ∧
    clientPendingAfter 7 [("p1", 5)] (sendToWebhook (.error .timeout)) =
      [("p1", 5)] := by
  have h := backend_failure_handling .timeout 1000 ⟨0, true, some "nota fiscal"⟩
    (.error .timeout) (.error .timeout) (by decide) (by decide)
    (by decide) (by decide)
  exact ⟨h.1, h.2.1, h.2.2 Nat 7 [("p1", 5)]⟩

/-- Claim C3 (confirmed): an item whose send time is more than 60
seconds before processing time is dropped as stale and no backend call
(nor any outbound message) occurs. -/
theorem stale_messages_dropped (now : Int) (item : InboundItem)
    (web : Except TransportError WebhookResponse)
    (cat : Except TransportError CategoryResponse)
    (vote : Except TransportError VoteResponse)
    (h : now - item.sentAtEpochMillis > oneMinuteMs) :
    route now item = .Drop .stale ∧
    unifiedHandler now item web cat vote = ⟨[], []⟩ := by
  constructor <;> simp [route, unifiedHandler, h]

/-- Claim C3 witness: a message 62 seconds old is dropped. -/
theorem stale_messages_dropped_witness :
    route 62000 ⟨0, true, some "sim"⟩ = .Drop .stale ∧
    unifiedHandler 62000 ⟨0, true, some "sim"⟩ (.error .timeout)
      (.error .timeout) (.error .timeout) = ⟨[], []⟩ :=
  stale_messages_dropped 62000 ⟨0, true, some "sim"⟩ (.error .timeout)
    (.error .timeout) (.error .timeout) (by decide)

/-- Claim C4 counterexample: the text "sim" in a fresh group message is
dispatched to the validation handler unconditionally — the source
consults no per-conversation pending state before the token match — so
even with no PendingInteraction anywhere it is classified
`AnswerPending`, not `ForwardAsNewItem`. -/
theorem token_without_pending_not_forwarded :
    ¬(route 1000 ⟨0, true, some "sim"⟩ = .ForwardAsNewItem) ∧
    route 1000 ⟨0, true, some "sim"⟩ =
      .AnswerPending .ValidationConfirmation "0" := by decide

/-- Claim C4 amended: classification depends on the message text alone:
a fresh group message whose normalized text matches no reply token is
forwarded as a new item, while a reply token (such as "sim") is always
classified `AnswerPending`, whether or not any interaction is pending. -/
theorem routing_ignores_pending (now : Int) (item : InboundItem)
    (hfresh : ¬(now - item.sentAtEpochMillis > oneMinuteMs))
    (hgroup : item.isGroup = true) :
    (isCategoryText (normalizeText item.body) = false →
      isValidationText (normalizeText item.body) = false →
      route now item = .ForwardAsNewItem) ∧
    (normalizeText item.body = "sim" →
      route now item = .AnswerPending .ValidationConfirmation "0") := by
  constructor
  · intro h1 h2
    simp [route, hfresh, hgroup, h1, h2]
  · intro h
    simp [route, hfresh, hgroup, h, isCategoryText, isValidationText,
      routeValidation, validationOption]

/-- Claim C4 witness: the amended statement at a concrete non-token text
and at a concrete "sim" variant. -/
theorem routing_ignores_pending_witness :
    route 1000 ⟨0, true, some "compra de cimento"⟩ = .ForwardAsNewItem ∧
    route 1000 ⟨0, true, some " SIM "⟩ =
      .AnswerPending .ValidationConfirmation "0" :=
  ⟨(routing_ignores_pending 1000 ⟨0, true, some "compra de cimento"⟩
      (by decide) (by decide)).1 (by decide) (by decide),
   (routing_ignores_pending 1000 ⟨0, true, some " SIM "⟩
      (by decide) (by decide)).2 (by decide)⟩

/-- Claim C5 (confirmed): a fresh group message "sim" is classified
`AnswerPending` with option code "0" and submitted to the poll-vote
endpoint; when the backend answers with the wire form of
`Confirm("R$150")`, the composed output is exactly the single message
"✅ Pagamento R$150 lançado.". -/
theorem sim_confirm_scenario :
    route 1000 ⟨0, true, some "sim"⟩ =
      .AnswerPending .ValidationConfirmation "0" ∧
    unifiedHandler 1000 ⟨0, true, some "sim"⟩ (.error .timeout)
      (.error .timeout) (.ok (confirmResponse "R$150")) =
      ⟨[.pollVote "0"], [some "✅ Pagamento R$150 lançado."]⟩ := by decide

/-- Claim C6 (confirmed, spec-modelled): the PendingQueue is strict FIFO:
enqueueing A, B, C on a conversation with an empty queue, then resolving
the active interaction, makes successive `dequeueNext` calls yield A,
then B, then C; in general a batch of enqueues appends to the queue in
submission order. -/
theorem pending_queue_fifo (s : PendingStore)
    (A B C : PendingInteraction) (h : s.queue = []) :
    (dequeueNext (resolve (enqueue (enqueue (enqueue s A) B) C)).2).1 =
      some A ∧
    (dequeueNext (dequeueNext
      (resolve (enqueue (enqueue (enqueue s A) B) C)).2).2).1 = some B ∧
    (dequeueNext (dequeueNext (dequeueNext
      (resolve (enqueue (enqueue (enqueue s A) B) C)).2).2).2).1 =
      some C ∧
    (∀ (l : List PendingInteraction) (t : PendingStore),
      (runOps t (l.map .enqueueOp)).queue = t.queue ++ l) := by
  obtain ⟨act, q⟩ := s
  subst h
  cases act with
  | nil =>
    exact ⟨rfl, rfl, rfl, runOps_enqueue_queue⟩
  | cons a rest =>
    exact ⟨rfl, rfl, rfl, runOps_enqueue_queue⟩

/-- Claim C6 witness: the FIFO statement at three concrete interactions
on an initially active conversation. -/
theorem pending_queue_fifo_witness :
    (dequeueNext (resolve (enqueue (enqueue (enqueue
      ⟨[sampleInteractionA], []⟩ sampleInteractionA) sampleInteractionB)
      sampleInteractionC)).2).1 = some sampleInteractionA ∧
    (dequeueNext (dequeueNext (resolve (enqueue (enqueue (enqueue
      ⟨[sampleInteractionA], []⟩ sampleInteractionA) sampleInteractionB)
      sampleInteractionC)).2).2).1 = some sampleInteractionB ∧
    (dequeueNext (dequeueNext (dequeueNext (resolve (enqueue (enqueue
      (enqueue ⟨[sampleInteractionA], []⟩ sampleInteractionA)
      sampleInteractionB) sampleInteractionC)).2).2).2).1 =
      some sampleInteractionC := by
  have h := pending_queue_fifo ⟨[sampleInteractionA], []⟩
    sampleInteractionA sampleInteractionB sampleInteractionC rfl
  exact ⟨h.1, h.2.1, h.2.2.1⟩

/-- Claim C7 (confirmed): reply-token normalization is invariant under
letter case and surrounding whitespace: "Sim", " sim " and "SIM" all map
to the same option code as "sim", namely "0". -/
theorem token_normalization_invariant :
    validationOption (normalizeText (some "Sim")) =
      validationOption (normalizeText (some "sim")) ∧
    validationOption (normalizeText (some " sim ")) =
      validationOption (normalizeText (some "sim")) ∧
    validationOption (normalizeText (some "SIM")) =
      validationOption (normalizeText (some "sim")) ∧
    validationOption (normalizeText (some "sim")) = some "0" := by decide

/-- Claim C8 counterexample: the claimed timeout policy (60s on every
item-submission call, 30s on every choice-submission call) does not hold
of the source's axios call sites: `WhatsAppClient.sendToWebhook` uses
30s, and the choice-submission calls pass no timeout at all. -/
theorem timeouts_not_as_claimed :
    ¬((relayWebhookTimeoutMs = some 60000 ∧
        clientWebhookTimeoutMs = some 60000 ∧
        managerWebhookTimeoutMs = some 60000) ∧
      (managerCategoryTimeoutMs = some 30000 ∧
        managerPollVoteTimeoutMs = some 30000 ∧
        clientCategoryTimeoutMs = some 30000 ∧
        clientPollVoteTimeoutMs = some 30000)) := by decide

/-- Claim C8 amended: only the relay handlers' webhook call sets a 60s
timeout and `WhatsAppClient.sendToWebhook` a 30s timeout;
`WhatsAppManager`'s webhook call and every choice-submission call
(category-selection and poll-vote, in both manager and client) pass no
timeout option and so are unbounded. -/
theorem actual_backend_timeouts :
    relayWebhookTimeoutMs = some 60000 ∧
    clientWebhookTimeoutMs = some 30000 ∧
    managerWebhookTimeoutMs = none ∧
    managerCategoryTimeoutMs = none ∧
    managerPollVoteTimeoutMs = none ∧
    clientCategoryTimeoutMs = none ∧
    clientPollVoteTimeoutMs = none := by decide

/-- Claim C9 counterexample: a non-group message that is also stale is
dropped by the staleness filter, which runs first, so `route` returns
`Drop stale` there, not `Drop notGroup`. -/
theorem non_group_stale_not_notgroup :
    ¬(route 200000 ⟨0, false, some "oi"⟩ = .Drop .notGroup) ∧
    route 200000 ⟨0, false, some "oi"⟩ = .Drop .stale := by decide

/-- Claim C9 amended: every non-group message is dropped — no backend
call and no outbound message — and a non-stale non-group message is
dropped as `notGroup` specifically (a stale one is dropped as stale). -/
theorem non_group_messages_dropped (now : Int) (item : InboundItem)
    (web : Except TransportError WebhookResponse)
    (cat : Except TransportError CategoryResponse)
    (vote : Except TransportError VoteResponse)
    (hgroup : item.isGroup = false) :
    unifiedHandler now item web cat vote = ⟨[], []⟩ ∧
    (¬(now - item.sentAtEpochMillis > oneMinuteMs) →
      route now item = .Drop .notGroup) := by
  constructor
  · by_cases h : now - item.sentAtEpochMillis > oneMinuteMs
    · simp [unifiedHandler, h]
    · simp [unifiedHandler, h, hgroup]
  · intro h
    simp [route, h, hgroup]

/-- Claim C9 witness: a fresh direct-chat message is dropped as
`notGroup` with no backend call. -/
theorem non_group_messages_dropped_witness :
    unifiedHandler 1000 ⟨0, false, some "sim"⟩ (.error .timeout)
      (.error .timeout) (.error .timeout) = ⟨[], []⟩ ∧
    route 1000 ⟨0, false, some "sim"⟩ = .Drop .notGroup := by
  have h := non_group_messages_dropped 1000 ⟨0, false, some "sim"⟩
    (.error .timeout) (.error .timeout) (.error .timeout) rfl
  exact ⟨h.1, h.2 (by decide)⟩

/-- Claim C10 (confirmed): `getStatus` returns
`{connected: false, hasQR: false, client_state: "not_initialized"}` when
no client is registered for the user, and when the registered client's
state query fails it still returns a result with `connected = false` and
`client_state = "initializing"`; being a total function, it never
propagates an error. -/
theorem getStatus_error_handling
    (clients : String → Option (Except StateQueryError String))
    (qrCodes : String → Bool) (userId : String) :
    (clients userId = none →
      getStatus clients qrCodes userId =
        ⟨false, false, "not_initialized"⟩) ∧
    (∀ e, clients userId = some (.error e) →
      (getStatus clients qrCodes userId).connected = false ∧
      (getStatus clients qrCodes userId).client_state =
        "initializing") := by
  constructor
  · intro h
    simp [getStatus, h]
  · intro e h
    simp [getStatus, h]

/-- Claim C10 witness: `getStatus` at a user with no client and at a user
whose client's state query throws. -/
theorem getStatus_error_handling_witness :
    getStatus (fun _ => none) (fun _ => false) "u7" =
      ⟨false, false, "not_initialized"⟩ ∧
    (getStatus (fun _ => some (.error .queryFailed)) (fun _ => true)
      "u7").connected = false ∧
    (getStatus (fun _ => some (.error .queryFailed)) (fun _ => true)
      "u7").client_state = "initializing" :=
  ⟨(getStatus_error_handling (fun _ => none) (fun _ => false) "u7").1 rfl,
   ((getStatus_error_handling (fun _ => some (.error .queryFailed))
      (fun _ => true) "u7").2 .queryFailed rfl).1,
   ((getStatus_error_handling (fun _ => some (.error .queryFailed))
      (fun _ => true) "u7").2 .queryFailed rfl).2⟩

end WhatsAppService
